import Mathlib

set_option synthInstance.maxSize 1024

/-!
Verification of the FaaSKeeper write-path coordinator
(`functions/aws/operations.py`, `functions/aws/model/system_storage.py`).

The storage backend is shallowly embedded as an explicit state value; the
executors of `operations.py` are translated as state-passing functions that
also emit a trace of storage calls and sleeps.  The unbounded retry loops of
the source are driven by the list of successive wall-clock readings
(`int(datetime.now().timestamp())`), so they are total: an empty schedule
yields `none` (the loop did not terminate within the supplied readings).
-/

/-- Version value object (`faaskeeper.version.Version`): a pair of a system
counter and an optional epoch counter, always constructed as
`Version(counter, None)` in this core. -/
structure Version where
  counter : Nat
  epoch : Option Nat
  deriving DecidableEq

/-- Node value object (`faaskeeper.node.Node`): path identity plus the
attributes the write path manipulates. -/
structure Node where
  path : String
  created : Option Version
  modified : Option Version
  children : List String
  data_b64 : String
  deriving DecidableEq

/-- Attribute selector (`faaskeeper.node.NodeDataType`). -/
inductive NodeDataType where
  | created
  | modified
  | children
  | data
  deriving DecidableEq

/-- Python exceptions that the embedded code can raise. -/
inductive PyExc where
  | keyError
  | conditionalCheckFailed
  deriving DecidableEq

/-- Reply dictionaries are embedded as ordered key/value lists. -/
abbrev Reply := List (String × String)

/-- Key/value pair of a reply dictionary. -/
def kv (k v : String) : String × String := (k, v)

/-- Key/value pair of an association list of arbitrary value type. -/
def entry {α : Type} (k : String) (v : α) : String × α := (k, v)

/-- State of the system storage: the per-path `timelock` attribute, the
committed node attributes per path, the users table, the system counter row,
and a flag telling whether the counter increment round-trip succeeds (the
spec allows `increase_system_counter` to return null on driver failure). -/
structure StorageState where
  timelock : List (String × Int)
  node : List (String × Node)
  users : List String
  counter : Nat
  counterOk : Bool
  deriving DecidableEq

/-- Set a key in an association list (single-row write of a KV store). -/
def mapSet {α : Type} (l : List (String × α)) (k : String) (v : α) :
    List (String × α) :=
  (k, v) :: l.filter (fun kv0 => kv0.1 ≠ k)

/-- Remove a key from an association list (single-row delete of a KV store). -/
def mapRemove {α : Type} (l : List (String × α)) (k : String) :
    List (String × α) :=
  l.filter (fun kv0 => kv0.1 ≠ k)

/-- Maximum lock holding time (`Storage.lock_lifetime` in
`system_storage.py`): 5 seconds of client budget plus 2 seconds of
clock-drift slack. -/
def lock_lifetime : Int := 7

/-- The condition expression of the conditional update in
`DynamoStorage.lock_node`: `attribute_not_exists(timelock) or
timelock < timestamp - lock_lifetime`. -/
def lock_condition (tl : Option Int) (ts : Int) : Bool :=
  match tl with
  | none => true
  | some t => decide (t < ts - lock_lifetime)

/-- The state update performed by a successful `lock_node` conditional
write: `SET timelock = :newlockvalue`. -/
def lock_set (st : StorageState) (path : String) (ts : Int) : StorageState :=
  { st with timelock := mapSet st.timelock path ts }

/-- Embeds `DynamoStorage.lock_node` exactly as written in
`src/functions/aws/model/system_storage.py` lines 44 to 65: it issues the
conditional update and then returns `None` (Python falls off the end of the
function); a failed condition surfaces as the driver's
`ConditionalCheckFailedException`, which the function does not catch. -/
def DynamoStorage.lock_node (st : StorageState) (path : String)
    (timestamp : Int) : Except PyExc (StorageState × PUnit) :=
  if lock_condition (st.timelock.lookup path) timestamp then
    Except.ok (lock_set st path timestamp, PUnit.unit)
  else
    Except.error PyExc.conditionalCheckFailed

/-- Modelled from the spec: `lock_node(path, ts)` of the abstract
SystemStorage interface (its full implementation, with the tuple return
consumed by `operations.py`, is not under `src/`).  Conditionally sets the
path's timelock to `ts`; on success returns `(true, currentNode?)`, on a
failed condition returns `(false, null)` and leaves the state unchanged. -/
def lock_node (st : StorageState) (path : String) (ts : Int) :
    StorageState × Bool × Option Node :=
  if lock_condition (st.timelock.lookup path) ts then
    (lock_set st path ts, true, st.node.lookup path)
  else
    (st, false, none)

/-- Modelled from the spec: `unlock_node(path, ts)` clears the timelock iff
its current value equals `ts`; idempotent (not under `src/`). -/
def unlock_node (st : StorageState) (path : String) (ts : Int) :
    StorageState :=
  if st.timelock.lookup path = some ts then
    { st with timelock := mapRemove st.timelock path }
  else
    st

/-- An empty storage row for a path that has no committed attributes yet. -/
def empty_row (path : String) : Node :=
  { path := path, created := none, modified := none, children := [],
    data_b64 := "" }

/-- Writing the selected attributes of `n` over the current row content
(selective commits touch only the listed attributes). -/
def apply_attrs (old : Option Node) (n : Node) (attrs : List NodeDataType) :
    Node :=
  let b0 := old.getD (empty_row n.path)
  let b1 := if NodeDataType.created ∈ attrs then
      { b0 with created := n.created } else b0
  let b2 := if NodeDataType.modified ∈ attrs then
      { b1 with modified := n.modified } else b1
  let b3 := if NodeDataType.children ∈ attrs then
      { b2 with children := n.children } else b2
  if NodeDataType.data ∈ attrs then { b3 with data_b64 := n.data_b64 } else b3

/-- Modelled from the spec: `commit_node(node, ts, attrs)` writes the
selected attributes and clears the timelock iff `timelock == ts`; on a
timelock mismatch it returns false and does not mutate the row (not under
`src/`). -/
def commit_node (st : StorageState) (n : Node) (ts : Int)
    (attrs : List NodeDataType) : StorageState × Bool :=
  if st.timelock.lookup n.path = some ts then
    ({ st with
        timelock := mapRemove st.timelock n.path,
        node := mapSet st.node n.path (apply_attrs (st.node.lookup n.path) n attrs) },
      true)
  else
    (st, false)

/-- Modelled from the spec: `delete_node(node, ts)` removes the row iff
`timelock == ts` (not under `src/`). -/
def delete_node (st : StorageState) (n : Node) (ts : Int) : StorageState :=
  if st.timelock.lookup n.path = some ts then
    { st with
        timelock := mapRemove st.timelock n.path,
        node := mapRemove st.node n.path }
  else
    st

/-- Modelled from the spec: `increase_system_counter(shard)` atomically
increments and returns the new counter value, or null on driver failure
(not under `src/`); the `counterOk` flag selects which outcome the
round-trip has. -/
def increase_system_counter (st : StorageState) (_shard : Nat) :
    StorageState × Option Nat :=
  if st.counterOk then
    ({ st with counter := st.counter + 1 }, some (st.counter + 1))
  else
    (st, none)

/-- Modelled from the spec: `delete_user(session_id)` removes the users-table
row and returns false if it was absent (the concrete driver is not under
`src/`; `DynamoStorage.delete_user` only forwards to it). -/
def delete_user (st : StorageState) (session_id : String) :
    StorageState × Bool :=
  ({ st with users := st.users.filter (fun u => u ≠ session_id) },
    st.users.contains session_id)

/-- Trace of the observable actions an executor phase performs. -/
inductive Event where
  | lockNode (path : String) (ts : Int) (acquired : Bool)
  | unlockNode (path : String) (ts : Int)
  | commitNode (n : Node) (ts : Int) (attrs : List NodeDataType) (ok : Bool)
  | deleteNode (path : String) (ts : Int)
  | deleteUser (session_id : String) (ok : Bool)
  | incCounter (value : Option Nat)
  | sleep (seconds : Nat)
  deriving DecidableEq

/-- Durations of the sleep events of a trace, in order. -/
def sleeps_in (evs : List Event) : List Nat :=
  evs.filterMap fun e =>
    match e with
    | Event.sleep d => some d
    | _ => none

/-- Successful lock acquisitions of a trace, in order. -/
def slocks_in (evs : List Event) : List (String × Int) :=
  evs.filterMap fun e =>
    match e with
    | Event.lockNode p t true => some (p, t)
    | _ => none

/-- Unlock calls of a trace, in order. -/
def unlocks_in (evs : List Event) : List (String × Int) :=
  evs.filterMap fun e =>
    match e with
    | Event.unlockNode p t => some (p, t)
    | _ => none

/-- Number of failed lock attempts of a trace. -/
def fails_in (evs : List Event) : Nat :=
  (evs.filterMap fun e =>
    match e with
    | Event.lockNode p t false => some (p, t)
    | _ => none).length

/-- Every lease acquired in the trace is explicitly released in it. -/
def released_all (evs : List Event) : Prop :=
  ∀ p t, (p, t) ∈ slocks_in evs → (p, t) ∈ unlocks_in evs

/-- A finished path segment (empty accumulators produce no segment). -/
def seg_finish (acc : List Char) : List String :=
  match acc with
  | [] => []
  | _ => [String.mk acc.reverse]

/-- Split a character list on slashes, dropping empty segments. -/
def segs_aux : List Char → List Char → List String
  | [], acc => seg_finish acc
  | c :: cs, acc =>
    if c = '/' then seg_finish acc ++ segs_aux cs []
    else segs_aux cs (c :: acc)

/-- Path components of a POSIX path, `pathlib`-style. -/
def path_segs (p : String) : List String :=
  segs_aux p.data []

/-- Last element of a segment list (empty for the root path). -/
def last_seg : List String → String
  | [] => ""
  | [s] => s
  | _ :: s :: rest => last_seg (s :: rest)

/-- `pathlib.Path(p).name`: the final component (empty for the root). -/
def pathName (p : String) : String :=
  last_seg (path_segs p)

/-- Join segments with slashes. -/
def join_segs : List String → String
  | [] => ""
  | [s] => s
  | s :: t :: rest => s ++ "/" ++ join_segs (t :: rest)

/-- `str(pathlib.Path(p).parent.absolute())` for an absolute `p`: the
lexical parent; the parent of the root is the root. -/
def pathParent (p : String) : String :=
  "/" ++ join_segs (path_segs p).dropLast

/-- The common lock-acquisition loop of `operations.py` (`while True:`
recompute the timestamp, call `lock_node`, sleep on failure).  `tss` is the
schedule of successive wall-clock readings; `sleepSec` is the literal
argument of the `sleep` call of the loop being embedded. -/
def lock_loop (sleepSec : Nat) (st : StorageState) (path : String) :
    List Int → Option (StorageState × Int × Option Node × List Event)
  | [] => none
  | ts :: rest =>
    match lock_node st path ts with
    | (st1, true, nd) => some (st1, ts, nd, [Event.lockNode path ts true])
    | (_, false, _) =>
      match lock_loop sleepSec st path rest with
      | none => none
      | some (st2, ts2, nd2, evs) =>
        some (st2, ts2, nd2,
          Event.lockNode path ts false :: Event.sleep sleepSec :: evs)

/-- Reply dictionary with status, path and reason keys, in source order. -/
def failure_reply (path reason : String) : Reply :=
  [kv "status" "failure", kv "path" path, kv "reason" reason]

/-- Reply dictionary of the counter-failure and lost-lease paths. -/
def unknown_reply : Reply :=
  [kv "status" "failure", kv "reason" "unknown"]

/-- Executor state set by `CreateNodeExecutor.lock_and_read` and consumed
by its later phases (`_timestamp`, `_parent_timestamp`, `_parent_node`). -/
structure CreateCtx where
  timestamp : Int
  parent_timestamp : Option Int
  parent_node : Option Node
  deriving DecidableEq

/-- Embeds `CreateNodeExecutor.lock_and_read` (`operations.py` lines 54 to
101): lock the target, fail with `node_exists` when the read shows a node,
lock the parent (retry sleep of 1 second), fail with `node_doesnt_exist`
releasing both leases when the parent node is absent. -/
def CreateNodeExecutor.lock_and_read (path : String) (st : StorageState)
    (tss tssp : List Int) :
    Option (StorageState × CreateCtx × (Bool × Reply) × List Event) :=
  match lock_loop 2 st path tss with
  | none => none
  | some (st1, ts, nd, evs1) =>
    if nd.isSome then
      some (unlock_node st1 path ts,
        { timestamp := ts, parent_timestamp := none, parent_node := none },
        (false, failure_reply path "node_exists"),
        evs1 ++ [Event.unlockNode path ts])
    else
      let parent_path := pathParent path
      match lock_loop 1 st1 parent_path tssp with
      | none => none
      | some (st2, tsp, pnd, evs2) =>
        if pnd.isNone then
          some (unlock_node (unlock_node st2 parent_path tsp) path ts,
            { timestamp := ts, parent_timestamp := some tsp,
              parent_node := none },
            (false, failure_reply parent_path "node_doesnt_exist"),
            evs1 ++ evs2 ++
              [Event.unlockNode parent_path tsp, Event.unlockNode path ts])
        else
          some (st2,
            { timestamp := ts, parent_timestamp := some tsp,
              parent_node := pnd },
            (true, ([] : Reply)), evs1 ++ evs2)

/-- Embeds `CreateNodeExecutor.commit_and_unlock` (`operations.py` lines 103
to 138).  The asserts of the source guarantee the parent node and parent
timestamp are set, so they are taken as arguments here.  Both `commit_node`
return values are ignored by the source. -/
def CreateNodeExecutor.commit_and_unlock (path data_b64 : String)
    (ts tsp : Int) (parent_node : Node) (st : StorageState) :
    StorageState × (Bool × Reply) × List Event :=
  match increase_system_counter st 0 with
  | (st1, none) => (st1, (false, unknown_reply), [Event.incCounter none])
  | (st1, some c) =>
    let n : Node :=
      { path := path, created := some { counter := c, epoch := none },
        modified := some { counter := c, epoch := none },
        children := [], data_b64 := data_b64 }
    let parent2 : Node :=
      { parent_node with children := parent_node.children ++ [pathName path] }
    let r1 := commit_node st1 parent2 tsp [NodeDataType.children]
    let r2 := commit_node r1.1 n ts
      [NodeDataType.created, NodeDataType.modified, NodeDataType.children]
    (r2.1, (true, ([] : Reply)),
      [Event.incCounter (some c),
       Event.commitNode parent2 tsp [NodeDataType.children] r1.2,
       Event.commitNode n ts
         [NodeDataType.created, NodeDataType.modified, NodeDataType.children]
         r2.2])

/-- Executor state set by `SetDataExecutor.lock_and_read` (`_timestamp`,
`_system_node`). -/
structure SetCtx where
  timestamp : Int
  system_node : Option Node
  deriving DecidableEq

/-- Embeds `SetDataExecutor.lock_and_read` (`operations.py` lines 194 to
220): lock the target (retry sleep of 2 seconds); fail with
`node_doesnt_exist` releasing the lease when the node is absent. -/
def SetDataExecutor.lock_and_read (path : String) (st : StorageState)
    (tss : List Int) :
    Option (StorageState × SetCtx × (Bool × Reply) × List Event) :=
  match lock_loop 2 st path tss with
  | none => none
  | some (st1, ts, nd, evs1) =>
    if nd.isNone then
      some (unlock_node st1 path ts,
        { timestamp := ts, system_node := none },
        (false, failure_reply path "node_doesnt_exist"),
        evs1 ++ [Event.unlockNode path ts])
    else
      some (st1, { timestamp := ts, system_node := nd },
        (true, ([] : Reply)), evs1)

/-- Embeds `SetDataExecutor.commit_and_unlock` (`operations.py` lines 238 to
266).  The assert of the source guarantees the node read in phase 1 is set,
so it is taken as an argument.  Unlike the other executors, this one checks
the `commit_node` return value. -/
def SetDataExecutor.commit_and_unlock (node : Node) (data_b64 : String)
    (ts : Int) (st : StorageState) :
    StorageState × (Bool × Reply) × List Event :=
  match increase_system_counter st 0 with
  | (st1, none) => (st1, (false, unknown_reply), [Event.incCounter none])
  | (st1, some c) =>
    let n2 : Node :=
      { node with modified := some { counter := c, epoch := none },
                  data_b64 := data_b64 }
    let r := commit_node st1 n2 ts [NodeDataType.modified]
    if r.2 then
      (r.1, (true, ([] : Reply)),
        [Event.incCounter (some c),
         Event.commitNode n2 ts [NodeDataType.modified] true])
    else
      (r.1, (false, unknown_reply),
        [Event.incCounter (some c),
         Event.commitNode n2 ts [NodeDataType.modified] false])

/-- Result of a phase that can also end in a failed `assert` statement
(Python raises `AssertionError` instead of returning). -/
inductive PhaseRet where
  | ret (ok : Bool) (reply : Reply)
  | assertFail
  deriving DecidableEq

/-- Executor state set by `DeleteNodeExecutor.lock_and_read`. -/
structure DeleteCtx where
  timestamp : Int
  node : Option Node
  parent_timestamp : Option Int
  parent_node : Option Node
  deriving DecidableEq

/-- Embeds `DeleteNodeExecutor.lock_and_read` (`operations.py` lines 277 to
318): lock the target (retry sleep of 2 seconds); `node_doesnt_exist` when
the node is absent; `not_empty` when its children list is non-empty; then
lock the parent (retry sleep of 2 seconds) and `assert self._parent_node`,
raising when the parent row has no committed node. -/
def DeleteNodeExecutor.lock_and_read (path : String) (st : StorageState)
    (tss tssp : List Int) :
    Option (StorageState × DeleteCtx × PhaseRet × List Event) :=
  match lock_loop 2 st path tss with
  | none => none
  | some (st1, ts, nd, evs1) =>
    match nd with
    | none =>
      some (unlock_node st1 path ts,
        { timestamp := ts, node := none, parent_timestamp := none,
          parent_node := none },
        PhaseRet.ret false (failure_reply path "node_doesnt_exist"),
        evs1 ++ [Event.unlockNode path ts])
    | some n =>
      if n.children.length ≠ 0 then
        some (unlock_node st1 path ts,
          { timestamp := ts, node := some n, parent_timestamp := none,
            parent_node := none },
          PhaseRet.ret false (failure_reply path "not_empty"),
          evs1 ++ [Event.unlockNode path ts])
      else
        let parent_path := pathParent path
        match lock_loop 2 st1 parent_path tssp with
        | none => none
        | some (st2, tsp, pnd, evs2) =>
          match pnd with
          | none =>
            some (st2,
              { timestamp := ts, node := some n, parent_timestamp := some tsp,
                parent_node := none },
              PhaseRet.assertFail, evs1 ++ evs2)
          | some pn =>
            some (st2,
              { timestamp := ts, node := some n, parent_timestamp := some tsp,
                parent_node := some pn },
              PhaseRet.ret true ([] : Reply), evs1 ++ evs2)

/-- Embeds `DeleteNodeExecutor.commit_and_unlock` (`operations.py` lines 333
to 355).  The asserts of the source guarantee the node, parent node and the
two timestamps are set, so they are taken as arguments.  The child name is
removed with `List.erase`; the `ValueError` that Python's `list.remove`
raises when the name is absent is not modelled (no claim reaches that
branch with an absent name).  The `commit_node` return value is ignored by
the source. -/
def DeleteNodeExecutor.commit_and_unlock (path : String) (ts tsp : Int)
    (node parent_node : Node) (st : StorageState) :
    StorageState × (Bool × Reply) × List Event :=
  match increase_system_counter st 0 with
  | (st1, none) => (st1, (false, unknown_reply), [Event.incCounter none])
  | (st1, some c) =>
    let parent2 : Node :=
      { parent_node with
          children := parent_node.children.erase (pathName path) }
    let r1 := commit_node st1 parent2 tsp [NodeDataType.children]
    let st3 := delete_node r1.1 node ts
    (st3, (true, ([] : Reply)),
      [Event.incCounter (some c),
       Event.commitNode parent2 tsp [NodeDataType.children] r1.2,
       Event.deleteNode path ts])

/-- Embeds `DeregisterSessionExecutor.lock_and_read` (`operations.py` line
159): a no-op, always `(True, dict())`. -/
def DeregisterSessionExecutor.lock_and_read (st : StorageState) :
    StorageState × (Bool × Reply) :=
  (st, (true, ([] : Reply)))

/-- Embeds `DeregisterSessionExecutor.commit_and_unlock` (`operations.py`
lines 165 to 181): `delete_user(session_id)`, returning success or
`session_does_not_exist`. -/
def DeregisterSessionExecutor.commit_and_unlock (session_id : String)
    (st : StorageState) : StorageState × (Bool × Reply) × List Event :=
  let r := delete_user st session_id
  if r.2 then
    (r.1, (true, [kv "status" "success", kv "session_id" session_id]),
      [Event.deleteUser session_id true])
  else
    (r.1,
      (false,
        [kv "status" "failure", kv "session_id" session_id,
         kv "reason" "session_does_not_exist"]),
      [Event.deleteUser session_id false])

/-- Operation tags of the dispatch table of `builder`. -/
inductive ExecutorKind where
  | createNode
  | setData
  | deleteNode
  | deregisterSession
  deriving DecidableEq

/-- The dispatch table of `builder` (`operations.py` lines 362 to 367). -/
def ops_table : List (String × ExecutorKind) :=
  [entry "create_node" ExecutorKind.createNode,
   entry "set_data" ExecutorKind.setData,
   entry "delete_node" ExecutorKind.deleteNode,
   entry "deregister_session" ExecutorKind.deregisterSession]

/-- Embeds `builder` (`operations.py` lines 358 to 392).  On an unknown
operation, and on a failed deserialization, the source first formats a log
message that subscripts `event` with the key `timestamp`, so a missing
`timestamp` key raises `KeyError` before the `incorrect_request` reply is
built.  Deserialization (`RequestOperation.deserialize`, from the
`faaskeeper` client package, not under `src/`) is abstracted as the
predicate `deser`. -/
def builder (operation _event_id : String) (event : List (String × String))
    (deser : ExecutorKind → List (String × String) → Bool) :
    Except PyExc (Option ExecutorKind × Reply) :=
  match ops_table.lookup operation with
  | none =>
    match event.lookup "timestamp" with
    | none => Except.error PyExc.keyError
    | some _ =>
      Except.ok (none, [kv "status" "failure", kv "reason" "incorrect_request"])
  | some k =>
    if deser k event then
      Except.ok (some k, ([] : Reply))
    else
      match event.lookup "timestamp" with
      | none => Except.error PyExc.keyError
      | some _ =>
        Except.ok (none,
          [kv "status" "failure", kv "reason" "incorrect_request"])

/-- Fixture: the empty storage. -/
def st_empty : StorageState :=
  { timelock := [], node := [], users := [], counter := 0, counterOk := true }

/-- Fixture: the committed root node with no children. -/
def root_node : Node :=
  { path := "/", created := some { counter := 1, epoch := none },
    modified := some { counter := 1, epoch := none }, children := [],
    data_b64 := "" }

/-- Fixture: a committed childless node at path `/a`. -/
def node_a : Node :=
  { path := "/a", created := some { counter := 1, epoch := none },
    modified := some { counter := 1, epoch := none }, children := [],
    data_b64 := "" }

/-- Fixture: storage holding only the root, with a failing counter
round-trip. -/
def st_c2 : StorageState :=
  { timelock := [], node := [entry "/" root_node], users := [], counter := 1,
    counterOk := false }

/-- Fixture: `st_c2` after `CreateNodeExecutor.lock_and_read` locked `/a` at
timestamp 10 and `/` at timestamp 11. -/
def st_c2l : StorageState :=
  { timelock := [entry "/" (11 : Int), entry "/a" (10 : Int)],
    node := [entry "/" root_node], users := [], counter := 1,
    counterOk := false }

/-- Fixture: leases of a create of `/a` taken at timestamps 10 (target) and
11 (parent), but the parent lease was since stolen (timelock now 999). -/
def st_c3 : StorageState :=
  { timelock := [entry "/a" (10 : Int), entry "/" (999 : Int)],
    node := [entry "/" root_node], users := [], counter := 1,
    counterOk := true }

/-- Fixture: the root after the ignored-CAS create appended the child name. -/
def root_node_with_a : Node :=
  { root_node with children := "a" :: [] }

/-- Fixture: the node the ignored-CAS create commits at counter 2. -/
def new_node_a : Node :=
  { path := "/a", created := some { counter := 2, epoch := none },
    modified := some { counter := 2, epoch := none }, children := [],
    data_b64 := "QQ==" }

/-- Fixture: a committed node at `/a` whose parent row is absent. -/
def st_c7 : StorageState :=
  { timelock := [], node := [entry "/a" node_a], users := [], counter := 1,
    counterOk := true }

/-- Fixture: `/a` and `/` committed, with a fresh foreign lease (timestamp
11) on the parent `/`. -/
def st_c8 : StorageState :=
  { timelock := [entry "/" (11 : Int)],
    node := [entry "/a" node_a, entry "/" root_node], users := [],
    counter := 1, counterOk := true }

/-- Fixture: storage holding only the root (healthy counter). -/
def st_root : StorageState :=
  { timelock := [], node := [entry "/" root_node], users := [], counter := 1,
    counterOk := true }

/-- Fixture: storage holding `/` and `/a` (healthy counter). -/
def st_root_a : StorageState :=
  { timelock := [],
    node := [entry "/" root_node_with_a, entry "/a" node_a], users := [],
    counter := 1, counterOk := true }

/-- Fixture: storage with one registered session `s1`. -/
def st_user : StorageState :=
  { timelock := [], node := [], users := "s1" :: [], counter := 0,
    counterOk := true }

/-- Deserialization stub that accepts every event. -/
def deser_any : ExecutorKind → List (String × String) → Bool :=
  fun _ _ => true

/-- Deserialization stub that rejects every event. -/
def deser_none : ExecutorKind → List (String × String) → Bool :=
  fun _ _ => false

/-- Fixture: `st_root` after a create of `/a` locked the target at
timestamp 10 and the parent at timestamp 11. -/
def st_rootl : StorageState :=
  { timelock := [entry "/" (11 : Int), entry "/a" (10 : Int)],
    node := [entry "/" root_node], users := [], counter := 1,
    counterOk := true }

/-- Fixture: both leases of a create of `/a` held and a healthy counter,
ready for phase 2. -/
def st_ready : StorageState :=
  { timelock := [entry "/a" (10 : Int), entry "/" (11 : Int)],
    node := [entry "/" root_node], users := [], counter := 1,
    counterOk := true }

/-- Fixture: `/a` locked at timestamp 10 over the populated tree, counter at
2, ready for a set-data commit. -/
def st6 : StorageState :=
  { timelock := [entry "/a" (10 : Int)],
    node := [entry "/" root_node_with_a, entry "/a" node_a], users := [],
    counter := 2, counterOk := true }

/-- Fixture: `st_root_a` after a delete of `/a` locked the target at
timestamp 10 and the parent at timestamp 11. -/
def st_al : StorageState :=
  { timelock := [entry "/" (11 : Int), entry "/a" (10 : Int)],
    node := [entry "/" root_node_with_a, entry "/a" node_a], users := [],
    counter := 1, counterOk := true }

theorem lock_loop_spec (d : Nat) (p : String) :
    ∀ (tss : List Int) (st st' : StorageState) (ts : Int) (nd : Option Node)
      (evs : List Event),
    lock_loop d st p tss = some (st', ts, nd, evs) →
    st' = lock_set st p ts ∧ nd = st.node.lookup p ∧
    slocks_in evs = [(p, ts)] ∧ unlocks_in evs = [] ∧
    sleeps_in evs = List.replicate (fails_in evs) d := by
  intro tss
  induction tss with
  | nil => intro st st' ts nd evs h; simp [lock_loop] at h
  | cons t rest ih =>
    intro st st' ts nd evs h
    simp only [lock_loop, lock_node] at h
    by_cases hc : lock_condition (st.timelock.lookup p) t
    · simp only [hc, if_true] at h
      obtain ⟨h1, h2, h3, h4⟩ := by simpa using h
      subst h1
      subst h2
      subst h3
      subst h4
      refine ⟨rfl, rfl, ?_, ?_, ?_⟩
      · simp [slocks_in]
      · simp [unlocks_in]
      · simp [sleeps_in, fails_in]
    · rw [Bool.not_eq_true] at hc
      simp only [hc, Bool.false_eq_true, if_false] at h
      rcases hrec : lock_loop d st p rest with _ | ⟨st2, ts2, nd2, evs2⟩
      · rw [hrec] at h; simp at h
      · rw [hrec] at h
        obtain ⟨h1, h2, h3, h4⟩ := by simpa using h
        subst h1
        subst h2
        subst h3
        subst h4
        obtain ⟨ih1, ih2, ih3, ih4, ih5⟩ := ih st st2 ts2 nd2 evs2 hrec
        refine ⟨ih1, ih2, ?_, ?_, ?_⟩
        · simpa [slocks_in] using ih3
        · simpa [unlocks_in] using ih4
        · simp only [sleeps_in, fails_in, List.filterMap_cons] at ih5 ⊢
          simp only [List.length_cons] at ih5 ⊢
          simp [ih5, List.replicate_succ]

theorem slocks_in_append (l1 l2 : List Event) :
    slocks_in (l1 ++ l2) = slocks_in l1 ++ slocks_in l2 :=
  List.filterMap_append l1 l2 _

theorem unlocks_in_append (l1 l2 : List Event) :
    unlocks_in (l1 ++ l2) = unlocks_in l1 ++ unlocks_in l2 :=
  List.filterMap_append l1 l2 _

theorem sleeps_in_append (l1 l2 : List Event) :
    sleeps_in (l1 ++ l2) = sleeps_in l1 ++ sleeps_in l2 :=
  List.filterMap_append l1 l2 _

theorem released_of_one (evs : List Event) (p : String) (t : Int)
    (hs : slocks_in evs = [(p, t)]) (hu : (p, t) ∈ unlocks_in evs) :
    released_all evs := by
  intro q u hm
  rw [hs] at hm
  simp only [List.mem_singleton, Prod.mk.injEq] at hm
  obtain ⟨rfl, rfl⟩ := hm
  exact hu

theorem released_of_two (evs : List Event) (p1 p2 : String) (t1 t2 : Int)
    (hs : slocks_in evs = [(p1, t1), (p2, t2)])
    (hu1 : (p1, t1) ∈ unlocks_in evs) (hu2 : (p2, t2) ∈ unlocks_in evs) :
    released_all evs := by
  intro q u hm
  rw [hs] at hm
  simp only [List.mem_cons, List.mem_singleton, Prod.mk.injEq,
    List.not_mem_nil, or_false] at hm
  rcases hm with ⟨rfl, rfl⟩ | ⟨rfl, rfl⟩
  · exact hu1
  · exact hu2

theorem create_lar_master :
    ∀ (st : StorageState) (path : String) (tss tssp : List Int)
      (st' : StorageState) (ctx : CreateCtx) (res : Bool × Reply)
      (evs : List Event),
    CreateNodeExecutor.lock_and_read path st tss tssp =
      some (st', ctx, res, evs) →
    ((path, ctx.timestamp) ∈ slocks_in evs) ∧
    ((st.node.lookup path).isSome = true →
      res = (false, failure_reply path "node_exists") ∧
      (path, ctx.timestamp) ∈ unlocks_in evs) ∧
    (st.node.lookup path = none →
      st.node.lookup (pathParent path) = none →
      res = (false, failure_reply (pathParent path) "node_doesnt_exist") ∧
      ∃ tsp, ctx.parent_timestamp = some tsp ∧
        (pathParent path, tsp) ∈ slocks_in evs ∧
        (pathParent path, tsp) ∈ unlocks_in evs ∧
        (path, ctx.timestamp) ∈ unlocks_in evs) ∧
    (st.node.lookup path = none →
      (st.node.lookup (pathParent path)).isSome = true →
      res = (true, ([] : Reply)) ∧
      ctx.parent_node = st.node.lookup (pathParent path) ∧
      ∃ tsp, ctx.parent_timestamp = some tsp ∧
        (pathParent path, tsp) ∈ slocks_in evs) ∧
    (∃ k1 k2, sleeps_in evs = List.replicate k1 2 ++ List.replicate k2 1) ∧
    (res.1 = false → released_all evs) := by
  intro st path tss tssp st' ctx res evs h
  simp only [CreateNodeExecutor.lock_and_read] at h
  rcases h1 : lock_loop 2 st path tss with _ | ⟨st1, ts, nd, evs1⟩
  · rw [h1] at h; simp at h
  · rw [h1] at h
    obtain ⟨e1, e2, e3, e4, e5⟩ := lock_loop_spec 2 path tss st st1 ts nd evs1 h1
    cases nd with
    | some n =>
      obtain ⟨q1, q2, q3, q4⟩ := by simpa using h
      subst q1
      subst q2
      subst q3
      subst q4
      refine ⟨?_, fun _ => ⟨rfl, ?_⟩, fun h0 _ => ?_, fun h0 _ => ?_, ?_, fun _ => ?_⟩
      · rw [slocks_in_append, e3]; simp
      · rw [unlocks_in_append, e4]; simp [unlocks_in]
      · rw [h0] at e2; exact absurd e2 (by simp)
      · rw [h0] at e2; exact absurd e2 (by simp)
      · exact ⟨fails_in evs1, 0, by rw [sleeps_in_append, e5]; simp [sleeps_in]⟩
      · refine released_of_one _ path ts ?_ ?_
        · rw [slocks_in_append, e3]; simp [slocks_in]
        · rw [unlocks_in_append, e4]; simp [unlocks_in]
    | none =>
      simp only [Option.isSome_none, Bool.false_eq_true, if_false] at h
      rcases h2 : lock_loop 1 st1 (pathParent path) tssp
        with _ | ⟨st2, tsp, pnd, evs2⟩
      · rw [h2] at h; simp at h
      · rw [h2] at h
        obtain ⟨f1, f2, f3, f4, f5⟩ :=
          lock_loop_spec 1 (pathParent path) tssp st1 st2 tsp pnd evs2 h2
        have hst1 : st1.node = st.node := by rw [e1]; rfl
        rw [hst1] at f2
        cases pnd with
        | none =>
          obtain ⟨q1, q2, q3, q4⟩ := by simpa using h
          subst q1
          subst q2
          subst q3
          subst q4
          refine ⟨?_, fun hs => ?_, fun _ _ => ⟨rfl, tsp, rfl, ?_, ?_, ?_⟩,
            fun _ hs => ?_, ?_, fun _ => ?_⟩
          · rw [slocks_in_append, e3]; simp
          · rw [← e2] at hs; simp at hs
          · rw [slocks_in_append, slocks_in_append, e3, f3]; simp
          · rw [unlocks_in_append, unlocks_in_append, e4, f4]; simp [unlocks_in]
          · rw [unlocks_in_append, unlocks_in_append, e4, f4]; simp [unlocks_in]
          · rw [← f2] at hs; simp at hs
          · exact ⟨fails_in evs1, fails_in evs2, by
              rw [sleeps_in_append, sleeps_in_append, e5, f5]; simp [sleeps_in]⟩
          · refine released_of_two _ path (pathParent path) ts tsp ?_ ?_ ?_
            · rw [slocks_in_append, slocks_in_append, e3, f3]; simp [slocks_in]
            · rw [unlocks_in_append, unlocks_in_append, e4, f4]; simp [unlocks_in]
            · rw [unlocks_in_append, unlocks_in_append, e4, f4]; simp [unlocks_in]
        | some pn =>
          obtain ⟨q1, q2, q3, q4⟩ := by simpa using h
          subst q1
          subst q2
          subst q3
          subst q4
          refine ⟨?_, fun hs => ?_, fun _ hp => ?_,
            fun _ _ => ⟨rfl, ?_, tsp, rfl, ?_⟩, ?_, fun hq => ?_⟩
          · rw [slocks_in_append, e3]; simp
          · rw [← e2] at hs; simp at hs
          · rw [hp] at f2; exact absurd f2 (by simp)
          · exact f2
          · rw [slocks_in_append, e3, f3]; simp
          · exact ⟨fails_in evs1, fails_in evs2, by
              rw [sleeps_in_append, e5, f5]⟩
          · simp at hq

theorem setdata_lar_master :
    ∀ (st : StorageState) (path : String) (tss : List Int)
      (st' : StorageState) (ctx : SetCtx) (res : Bool × Reply)
      (evs : List Event),
    SetDataExecutor.lock_and_read path st tss = some (st', ctx, res, evs) →
    ((path, ctx.timestamp) ∈ slocks_in evs) ∧
    (st.node.lookup path = none →
      res = (false, failure_reply path "node_doesnt_exist") ∧
      (path, ctx.timestamp) ∈ unlocks_in evs) ∧
    ((st.node.lookup path).isSome = true →
      res = (true, ([] : Reply)) ∧ ctx.system_node = st.node.lookup path) ∧
    (∃ k, sleeps_in evs = List.replicate k 2) ∧
    (res.1 = false → released_all evs) := by
  intro st path tss st' ctx res evs h
  simp only [SetDataExecutor.lock_and_read] at h
  rcases h1 : lock_loop 2 st path tss with _ | ⟨st1, ts, nd, evs1⟩
  · rw [h1] at h; simp at h
  · rw [h1] at h
    obtain ⟨e1, e2, e3, e4, e5⟩ := lock_loop_spec 2 path tss st st1 ts nd evs1 h1
    cases nd with
    | none =>
      obtain ⟨q1, q2, q3, q4⟩ := by simpa using h
      subst q1
      subst q2
      subst q3
      subst q4
      refine ⟨?_, fun _ => ⟨rfl, ?_⟩, fun hs => ?_, ?_, fun _ => ?_⟩
      · rw [slocks_in_append, e3]; simp
      · rw [unlocks_in_append, e4]; simp [unlocks_in]
      · rw [← e2] at hs; simp at hs
      · exact ⟨fails_in evs1, by rw [sleeps_in_append, e5]; simp [sleeps_in]⟩
      · refine released_of_one _ path ts ?_ ?_
        · rw [slocks_in_append, e3]; simp [slocks_in]
        · rw [unlocks_in_append, e4]; simp [unlocks_in]
    | some n =>
      obtain ⟨q1, q2, q3, q4⟩ := by simpa using h
      subst q1
      subst q2
      subst q3
      subst q4
      refine ⟨?_, fun h0 => ?_, fun _ => ⟨rfl, e2⟩, ?_, fun hq => ?_⟩
      · rw [e3]; simp
      · rw [h0] at e2; exact absurd e2 (by simp)
      · exact ⟨fails_in evs1, e5⟩
      · simp at hq

theorem delete_lar_master :
    ∀ (st : StorageState) (path : String) (tss tssp : List Int)
      (st' : StorageState) (ctx : DeleteCtx) (r : PhaseRet)
      (evs : List Event),
    DeleteNodeExecutor.lock_and_read path st tss tssp =
      some (st', ctx, r, evs) →
    ((path, ctx.timestamp) ∈ slocks_in evs) ∧
    (st.node.lookup path = none →
      r = PhaseRet.ret false (failure_reply path "node_doesnt_exist") ∧
      (path, ctx.timestamp) ∈ unlocks_in evs) ∧
    (∀ n, st.node.lookup path = some n → n.children.length ≠ 0 →
      r = PhaseRet.ret false (failure_reply path "not_empty") ∧
      (path, ctx.timestamp) ∈ unlocks_in evs) ∧
    (∀ n, st.node.lookup path = some n → n.children.length = 0 →
      st.node.lookup (pathParent path) = none →
      r = PhaseRet.assertFail) ∧
    (∀ n, st.node.lookup path = some n → n.children.length = 0 →
      (st.node.lookup (pathParent path)).isSome = true →
      r = PhaseRet.ret true ([] : Reply) ∧
      ctx.parent_node = st.node.lookup (pathParent path) ∧
      ∃ tsp, ctx.parent_timestamp = some tsp ∧
        (pathParent path, tsp) ∈ slocks_in evs) ∧
    (∃ k, sleeps_in evs = List.replicate k 2) ∧
    (∀ reply, r = PhaseRet.ret false reply → released_all evs) := by
  intro st path tss tssp st' ctx r evs h
  simp only [DeleteNodeExecutor.lock_and_read] at h
  rcases h1 : lock_loop 2 st path tss with _ | ⟨st1, ts, nd, evs1⟩
  · rw [h1] at h; simp at h
  · rw [h1] at h
    obtain ⟨e1, e2, e3, e4, e5⟩ := lock_loop_spec 2 path tss st st1 ts nd evs1 h1
    cases nd with
    | none =>
      obtain ⟨q1, q2, q3, q4⟩ := by simpa using h
      subst q1
      subst q2
      subst q3
      subst q4
      refine ⟨?_, fun _ => ⟨rfl, ?_⟩, fun n hn => ?_, fun n hn => ?_,
        fun n hn => ?_, ?_, fun _ _ => ?_⟩
      · rw [slocks_in_append, e3]; simp
      · rw [unlocks_in_append, e4]; simp [unlocks_in]
      · rw [← e2] at hn; simp at hn
      · rw [← e2] at hn; simp at hn
      · rw [← e2] at hn; simp at hn
      · exact ⟨fails_in evs1, by rw [sleeps_in_append, e5]; simp [sleeps_in]⟩
      · refine released_of_one _ path ts ?_ ?_
        · rw [slocks_in_append, e3]; simp [slocks_in]
        · rw [unlocks_in_append, e4]; simp [unlocks_in]
    | some n =>
      by_cases hl : n.children.length = 0
      · simp only [hl, ne_eq, not_true_eq_false, if_false] at h
        rcases h2 : lock_loop 2 st1 (pathParent path) tssp
          with _ | ⟨st2, tsp, pnd, evs2⟩
        · rw [h2] at h; simp at h
        · rw [h2] at h
          obtain ⟨f1, f2, f3, f4, f5⟩ :=
            lock_loop_spec 2 (pathParent path) tssp st1 st2 tsp pnd evs2 h2
          have hst1 : st1.node = st.node := by rw [e1]; rfl
          rw [hst1] at f2
          cases pnd with
          | none =>
            obtain ⟨q1, q2, q3, q4⟩ := by simpa using h
            subst q1
            subst q2
            subst q3
            subst q4
            refine ⟨?_, fun hn => ?_, fun m hm hc => ?_, fun m _ _ _ => rfl,
              fun m hm _ hp => ?_, ?_, fun _ hq => ?_⟩
            · rw [slocks_in_append, e3]; simp
            · rw [hn] at e2; exact absurd e2 (by simp)
            · rw [← e2] at hm
              obtain rfl : n = m := by simpa using hm
              exact absurd hl hc
            · rw [← f2] at hp; simp at hp
            · exact ⟨fails_in evs1 + fails_in evs2, by
                rw [sleeps_in_append, e5, f5, List.replicate_add]⟩
            · simp at hq
          | some pn =>
            obtain ⟨q1, q2, q3, q4⟩ := by simpa using h
            subst q1
            subst q2
            subst q3
            subst q4
            refine ⟨?_, fun hn => ?_, fun m hm hc => ?_, fun m hm hc hp => ?_,
              fun m _ _ _ => ⟨rfl, f2, tsp, rfl, ?_⟩, ?_, fun _ hq => ?_⟩
            · rw [slocks_in_append, e3]; simp
            · rw [hn] at e2; exact absurd e2 (by simp)
            · rw [← e2] at hm
              obtain rfl : n = m := by simpa using hm
              exact absurd hl hc
            · rw [hp] at f2; exact absurd f2 (by simp)
            · rw [slocks_in_append, e3, f3]; simp
            · exact ⟨fails_in evs1 + fails_in evs2, by
                rw [sleeps_in_append, e5, f5, List.replicate_add]⟩
            · simp at hq
      · simp only [hl, ne_eq, not_false_eq_true, if_true] at h
        obtain ⟨q1, q2, q3, q4⟩ := by simpa using h
        subst q1
        subst q2
        subst q3
        subst q4
        refine ⟨?_, fun hn => ?_, fun m _ _ => ⟨rfl, ?_⟩, fun m hm hc => ?_,
          fun m hm hc => ?_, ?_, fun _ _ => ?_⟩
        · rw [slocks_in_append, e3]; simp
        · rw [hn] at e2; exact absurd e2 (by simp)
        · rw [unlocks_in_append, e4]; simp [unlocks_in]
        · rw [← e2] at hm
          obtain rfl : n = m := by simpa using hm
          exact absurd hc hl
        · rw [← e2] at hm
          obtain rfl : n = m := by simpa using hm
          exact absurd hc hl
        · exact ⟨fails_in evs1, by rw [sleeps_in_append, e5]; simp [sleeps_in]⟩
        · refine released_of_one _ path ts ?_ ?_
          · rw [slocks_in_append, e3]; simp [slocks_in]
          · rw [unlocks_in_append, e4]; simp [unlocks_in]

theorem create_commit_counter_none (path data_b64 : String) (ts tsp : Int)
    (pn : Node) (st : StorageState) (hc : st.counterOk = false) :
    CreateNodeExecutor.commit_and_unlock path data_b64 ts tsp pn st =
      (st, (false, unknown_reply), [Event.incCounter none]) := by
  simp [CreateNodeExecutor.commit_and_unlock, increase_system_counter, hc]

theorem setdata_commit_counter_none (node : Node) (data_b64 : String)
    (ts : Int) (st : StorageState) (hc : st.counterOk = false) :
    SetDataExecutor.commit_and_unlock node data_b64 ts st =
      (st, (false, unknown_reply), [Event.incCounter none]) := by
  simp [SetDataExecutor.commit_and_unlock, increase_system_counter, hc]

theorem delete_commit_counter_none (path : String) (ts tsp : Int)
    (node pn : Node) (st : StorageState) (hc : st.counterOk = false) :
    DeleteNodeExecutor.commit_and_unlock path ts tsp node pn st =
      (st, (false, unknown_reply), [Event.incCounter none]) := by
  simp [DeleteNodeExecutor.commit_and_unlock, increase_system_counter, hc]

theorem lookup_mapSet_self {α : Type} (l : List (String × α)) (k : String)
    (v : α) : (mapSet l k v).lookup k = some v := by
  simp [mapSet, List.lookup]

theorem contains_filter_self (l : List String) (s : String) :
    (l.filter (fun u => u ≠ s)).contains s = false := by
  induction l with
  | nil => rfl
  | cons a t ih =>
    by_cases ha : a = s
    · simp [List.filter, ha, ih]
    · simpa [List.filter, ha, List.contains_cons, ih] using
        fun hq => absurd hq.symm ha

/-- C1: the condition of `DynamoStorage.lock_node` behaves as specified
(absent timelock, or a timelock older than the timestamp minus the 7-second
lock lifetime, lets the write through; a fresh timelock rejects it), but the
function returns `None` on success and lets the driver exception escape on
failure, instead of the specified pair of acquired flag and current node. -/
theorem lock_node_src_behaviour :
    DynamoStorage.lock_node st_empty "/a" 100 =
      Except.ok (lock_set st_empty "/a" 100, PUnit.unit) ∧
    DynamoStorage.lock_node (lock_set st_empty "/a" 100) "/a" 104 =
      Except.error PyExc.conditionalCheckFailed ∧
    DynamoStorage.lock_node (lock_set st_empty "/a" 100) "/a" 108 =
      Except.ok (lock_set (lock_set st_empty "/a" 100) "/a" 108,
        PUnit.unit) := by
  refine ⟨rfl, rfl, rfl⟩

/-- C2 counterexample: a create on `/a` acquires both leases in phase 1;
phase 2 then fails (null counter) and returns ok equal to false while both
timelocks are still held, with no unlock performed. -/
theorem create_counter_failure_keeps_leases_cx :
    CreateNodeExecutor.lock_and_read "/a" st_c2 [10] [11] =
      some (st_c2l,
        { timestamp := 10, parent_timestamp := some 11,
          parent_node := some root_node },
        (true, ([] : Reply)),
        [Event.lockNode "/a" 10 true, Event.lockNode "/" 11 true]) ∧
    CreateNodeExecutor.commit_and_unlock "/a" "QQ==" 10 11 root_node st_c2l =
      (st_c2l, (false, unknown_reply), [Event.incCounter none]) ∧
    st_c2l.timelock.lookup "/a" = some 10 ∧
    st_c2l.timelock.lookup "/" = some 11 := by
  refine ⟨by decide, by decide, by decide, by decide⟩

/-- C2 (amended): a false return from any `lock_and_read` phase has released
every lease that phase acquired; a false return from `commit_and_unlock` on
a null counter leaves the storage state (and so every held lease) untouched
for all three executors. -/
theorem phase_false_lease_handling_amended :
    (∀ (st : StorageState) (path : String) (tss tssp : List Int)
      (st' : StorageState) (ctx : CreateCtx) (res : Bool × Reply)
      (evs : List Event),
      CreateNodeExecutor.lock_and_read path st tss tssp =
        some (st', ctx, res, evs) →
      res.1 = false → released_all evs) ∧
    (∀ (st : StorageState) (path : String) (tss : List Int)
      (st' : StorageState) (ctx : SetCtx) (res : Bool × Reply)
      (evs : List Event),
      SetDataExecutor.lock_and_read path st tss = some (st', ctx, res, evs) →
      res.1 = false → released_all evs) ∧
    (∀ (st : StorageState) (path : String) (tss tssp : List Int)
      (st' : StorageState) (ctx : DeleteCtx) (reply : Reply)
      (evs : List Event),
      DeleteNodeExecutor.lock_and_read path st tss tssp =
        some (st', ctx, PhaseRet.ret false reply, evs) →
      released_all evs) ∧
    (∀ (st : StorageState) (path data_b64 : String) (ts tsp : Int)
      (pn : Node), st.counterOk = false →
      CreateNodeExecutor.commit_and_unlock path data_b64 ts tsp pn st =
        (st, (false, unknown_reply), [Event.incCounter none])) ∧
    (∀ (st : StorageState) (node : Node) (data_b64 : String) (ts : Int),
      st.counterOk = false →
      SetDataExecutor.commit_and_unlock node data_b64 ts st =
        (st, (false, unknown_reply), [Event.incCounter none])) ∧
    (∀ (st : StorageState) (path : String) (ts tsp : Int) (node pn : Node),
      st.counterOk = false →
      DeleteNodeExecutor.commit_and_unlock path ts tsp node pn st =
        (st, (false, unknown_reply), [Event.incCounter none])) := by
  refine ⟨?_, ?_, ?_, ?_, ?_, ?_⟩
  · intro st path tss tssp st' ctx res evs h hres
    exact (create_lar_master st path tss tssp st' ctx res evs h).2.2.2.2.2 hres
  · intro st path tss st' ctx res evs h hres
    exact (setdata_lar_master st path tss st' ctx res evs h).2.2.2.2 hres
  · intro st path tss tssp st' ctx reply evs h
    exact (delete_lar_master st path tss tssp st' ctx _ evs h).2.2.2.2.2.2
      reply rfl
  · intro st path data_b64 ts tsp pn hc
    exact create_commit_counter_none path data_b64 ts tsp pn st hc
  · intro st node data_b64 ts hc
    exact setdata_commit_counter_none node data_b64 ts st hc
  · intro st path ts tsp node pn hc
    exact delete_commit_counter_none path ts tsp node pn st hc

/-- C2 witness: a concrete failed create (target `/` already exists)
releases its lease, and a concrete null-counter set-data failure returns
the state unchanged. -/
theorem phase_false_lease_handling_amended_witness :
    released_all [Event.lockNode "/" 10 true, Event.unlockNode "/" 10] ∧
    SetDataExecutor.commit_and_unlock node_a "QQ==" 10 st_c2 =
      (st_c2, (false, unknown_reply), [Event.incCounter none]) :=
  ⟨phase_false_lease_handling_amended.1 st_root "/" [10] [11] st_root
      { timestamp := 10, parent_timestamp := none, parent_node := none }
      (false, failure_reply "/" "node_exists")
      [Event.lockNode "/" 10 true, Event.unlockNode "/" 10]
      (by decide) rfl,
    phase_false_lease_handling_amended.2.2.2.2.1 st_c2 node_a "QQ==" 10
      (by decide)⟩

/-- C3 counterexample: with the parent lease stolen, the parent
`commit_node` of a create returns false, yet `commit_and_unlock` still
returns ok equal to true instead of the claimed unknown failure. -/
theorem create_commit_ignores_cas_cx :
    (CreateNodeExecutor.commit_and_unlock "/a" "QQ==" 10 11 root_node
        st_c3).2 =
      ((true, ([] : Reply)),
       [Event.incCounter (some 2),
        Event.commitNode root_node_with_a 11 [NodeDataType.children] false,
        Event.commitNode new_node_a 10
          [NodeDataType.created, NodeDataType.modified, NodeDataType.children]
          true]) := by
  decide

/-- C3 (amended): only `SetDataExecutor.commit_and_unlock` checks the
`commit_node` result, returning the unknown failure when it is false;
`CreateNodeExecutor` and `DeleteNodeExecutor` ignore the results of their
`commit_node` calls and return ok equal to true regardless. -/
theorem commit_cas_result_handling_amended :
    (∀ (node : Node) (data_b64 : String) (ts : Int) (st : StorageState),
      st.counterOk = true →
      ¬ st.timelock.lookup node.path = some ts →
      (SetDataExecutor.commit_and_unlock node data_b64 ts st).2.1 =
        (false, unknown_reply)) ∧
    (∀ (path data_b64 : String) (ts tsp : Int) (pn : Node)
      (st : StorageState), st.counterOk = true →
      (CreateNodeExecutor.commit_and_unlock path data_b64 ts tsp pn st).2.1 =
        (true, ([] : Reply))) ∧
    (∀ (path : String) (ts tsp : Int) (node pn : Node) (st : StorageState),
      st.counterOk = true →
      (DeleteNodeExecutor.commit_and_unlock path ts tsp node pn st).2.1 =
        (true, ([] : Reply))) := by
  refine ⟨?_, ?_, ?_⟩
  · intro node data_b64 ts st hc ht
    simp [SetDataExecutor.commit_and_unlock, increase_system_counter, hc,
      commit_node, ht]
  · intro path data_b64 ts tsp pn st hc
    simp [CreateNodeExecutor.commit_and_unlock, increase_system_counter, hc]
  · intro path ts tsp node pn st hc
    simp [DeleteNodeExecutor.commit_and_unlock, increase_system_counter, hc]

/-- C3 witness: a set-data commit whose lease check fails aborts with the
unknown failure, while the create of the C3 counterexample state reports
success. -/
theorem commit_cas_result_handling_amended_witness :
    (SetDataExecutor.commit_and_unlock node_a "QQ==" 99 st_root).2.1 =
      (false, unknown_reply) ∧
    (CreateNodeExecutor.commit_and_unlock "/a" "QQ==" 10 11 root_node
        st_c3).2.1 =
      (true, ([] : Reply)) :=
  ⟨commit_cas_result_handling_amended.1 node_a "QQ==" 99 st_root rfl
      (by decide),
    commit_cas_result_handling_amended.2.1 "/a" "QQ==" 10 11 root_node st_c3
      rfl⟩

/-- C4: `CreateNodeExecutor.lock_and_read` locks the target with its
timestamp; an existing node yields the node-exists failure with the target
lease released; a missing parent node yields the node-doesnt-exist failure
naming the parent with both leases released; otherwise it returns ok with
the parent node recorded. -/
theorem create_lock_and_read_spec :
    ∀ (st : StorageState) (path : String) (tss tssp : List Int)
      (st' : StorageState) (ctx : CreateCtx) (res : Bool × Reply)
      (evs : List Event),
    CreateNodeExecutor.lock_and_read path st tss tssp =
      some (st', ctx, res, evs) →
    ((path, ctx.timestamp) ∈ slocks_in evs) ∧
    ((st.node.lookup path).isSome = true →
      res = (false, failure_reply path "node_exists") ∧
      (path, ctx.timestamp) ∈ unlocks_in evs) ∧
    (st.node.lookup path = none →
      st.node.lookup (pathParent path) = none →
      res = (false, failure_reply (pathParent path) "node_doesnt_exist") ∧
      ∃ tsp, ctx.parent_timestamp = some tsp ∧
        (pathParent path, tsp) ∈ slocks_in evs ∧
        (pathParent path, tsp) ∈ unlocks_in evs ∧
        (path, ctx.timestamp) ∈ unlocks_in evs) ∧
    (st.node.lookup path = none →
      (st.node.lookup (pathParent path)).isSome = true →
      res = (true, ([] : Reply)) ∧
      ctx.parent_node = st.node.lookup (pathParent path) ∧
      ∃ tsp, ctx.parent_timestamp = some tsp ∧
        (pathParent path, tsp) ∈ slocks_in evs) := by
  intro st path tss tssp st' ctx res evs h
  obtain ⟨m1, m2, m3, m4, _, _⟩ :=
    create_lar_master st path tss tssp st' ctx res evs h
  exact ⟨m1, m2, m3, m4⟩

/-- C4 witness: creating `/a` over an existing root succeeds in phase 1 and
records the parent node. -/
theorem create_lock_and_read_spec_witness :
    (true, ([] : Reply)) = (true, ([] : Reply)) ∧
    (some root_node : Option Node) = st_root.node.lookup (pathParent "/a") ∧
    ∃ tsp, (some (11 : Int) : Option Int) = some tsp ∧
      (pathParent "/a", tsp) ∈ slocks_in
        [Event.lockNode "/a" 10 true, Event.lockNode "/" 11 true] :=
  (create_lock_and_read_spec st_root "/a" [10] [11] st_rootl
      { timestamp := 10, parent_timestamp := some 11,
        parent_node := some root_node }
      (true, ([] : Reply))
      [Event.lockNode "/a" 10 true, Event.lockNode "/" 11 true]
      (by decide)).2.2.2 (by decide) (by decide)

/-- C5: `CreateNodeExecutor.commit_and_unlock` fails with the unknown reply
on a null counter; otherwise it commits the parent with the child name
appended under the CHILDREN attribute at the parent timestamp, commits the
new node (created and modified at the fresh counter, empty children, the
request data) under CREATED, MODIFIED and CHILDREN at the target timestamp,
and returns ok. -/
theorem create_commit_and_unlock_spec :
    ∀ (path data_b64 : String) (ts tsp : Int) (pn : Node)
      (st : StorageState),
    (st.counterOk = false →
      CreateNodeExecutor.commit_and_unlock path data_b64 ts tsp pn st =
        (st, (false, unknown_reply), [Event.incCounter none])) ∧
    (st.counterOk = true →
      ∃ ok1 ok2,
        (CreateNodeExecutor.commit_and_unlock path data_b64 ts tsp pn st).2 =
          ((true, ([] : Reply)),
           [Event.incCounter (some (st.counter + 1)),
            Event.commitNode
              { pn with children := pn.children ++ [pathName path] } tsp
              [NodeDataType.children] ok1,
            Event.commitNode
              { path := path,
                created := some { counter := st.counter + 1, epoch := none },
                modified := some { counter := st.counter + 1, epoch := none },
                children := [], data_b64 := data_b64 } ts
              [NodeDataType.created, NodeDataType.modified,
               NodeDataType.children] ok2])) := by
  intro path data_b64 ts tsp pn st
  refine ⟨fun hc => create_commit_counter_none path data_b64 ts tsp pn st hc,
    fun hc => ?_⟩
  simp only [CreateNodeExecutor.commit_and_unlock, increase_system_counter,
    hc, if_true]
  exact ⟨_, _, rfl⟩

/-- C5 witness: committing the create of `/a` over the root at counter 1
emits exactly the two specified commits and succeeds. -/
theorem create_commit_and_unlock_spec_witness :
    ∃ ok1 ok2,
      (CreateNodeExecutor.commit_and_unlock "/a" "QQ==" 10 11 root_node
          st_ready).2 =
        ((true, ([] : Reply)),
         [Event.incCounter (some 2),
          Event.commitNode
            { root_node with children := root_node.children ++
                [pathName "/a"] } 11 [NodeDataType.children] ok1,
          Event.commitNode
            { path := "/a",
              created := some { counter := 2, epoch := none },
              modified := some { counter := 2, epoch := none },
              children := [], data_b64 := "QQ==" } 10
            [NodeDataType.created, NodeDataType.modified,
             NodeDataType.children] ok2]) :=
  (create_commit_and_unlock_spec "/a" "QQ==" 10 11 root_node st_ready).2 rfl

/-- C6: `SetDataExecutor.commit_and_unlock` fails with the unknown reply on
a null counter; otherwise it commits the node with the fresh modified
version and the request data under exactly the MODIFIED attribute set, so
the stored row changes only in its modified field; a false `commit_node`
yields the unknown failure, a true one yields ok. -/
theorem setdata_commit_and_unlock_spec :
    ∀ (node : Node) (data_b64 : String) (ts : Int) (st : StorageState)
      (old : Node),
    (st.counterOk = false →
      SetDataExecutor.commit_and_unlock node data_b64 ts st =
        (st, (false, unknown_reply), [Event.incCounter none])) ∧
    (st.counterOk = true → st.timelock.lookup node.path = some ts →
      (SetDataExecutor.commit_and_unlock node data_b64 ts st).2 =
        ((true, ([] : Reply)),
         [Event.incCounter (some (st.counter + 1)),
          Event.commitNode
            { node with
                modified := some { counter := st.counter + 1, epoch := none },
                data_b64 := data_b64 } ts [NodeDataType.modified] true]) ∧
      (st.node.lookup node.path = some old →
        ((SetDataExecutor.commit_and_unlock node data_b64 ts st).1).node.lookup
            node.path =
          some { old with
              modified := some { counter := st.counter + 1, epoch := none } })) ∧
    (st.counterOk = true → ¬ st.timelock.lookup node.path = some ts →
      (SetDataExecutor.commit_and_unlock node data_b64 ts st).2 =
        ((false, unknown_reply),
         [Event.incCounter (some (st.counter + 1)),
          Event.commitNode
            { node with
                modified := some { counter := st.counter + 1, epoch := none },
                data_b64 := data_b64 } ts [NodeDataType.modified] false])) := by
  intro node data_b64 ts st old
  refine ⟨fun hc => setdata_commit_counter_none node data_b64 ts st hc,
    fun hc ht => ⟨?_, fun hold => ?_⟩, fun hc ht => ?_⟩
  · simp only [SetDataExecutor.commit_and_unlock, increase_system_counter,
      hc, if_true, commit_node]
    simp [ht]
  · simp only [SetDataExecutor.commit_and_unlock, increase_system_counter,
      hc, if_true, commit_node]
    simp [ht, lookup_mapSet_self, apply_attrs, hold]
  · simp only [SetDataExecutor.commit_and_unlock, increase_system_counter,
      hc, if_true, commit_node]
    simp [ht]

/-- C6 witness: a concrete set-data commit on `/a` at counter 2 emits the
single MODIFIED commit and rewrites only the modified field of the row. -/
theorem setdata_commit_and_unlock_spec_witness :
    (SetDataExecutor.commit_and_unlock node_a "Qk0=" 10 st6).2 =
      ((true, ([] : Reply)),
       [Event.incCounter (some 3),
        Event.commitNode
          { node_a with
              modified := some { counter := 3, epoch := none },
              data_b64 := "Qk0=" } 10 [NodeDataType.modified] true]) ∧
    ((SetDataExecutor.commit_and_unlock node_a "Qk0=" 10 st6).1).node.lookup
        node_a.path =
      some { node_a with modified := some { counter := 3, epoch := none } } :=
  ⟨((setdata_commit_and_unlock_spec node_a "Qk0=" 10 st6 node_a).2.1 rfl
      (by decide)).1,
    ((setdata_commit_and_unlock_spec node_a "Qk0=" 10 st6 node_a).2.1 rfl
      (by decide)).2 (by decide)⟩

/-- C7 counterexample: deleting `/a` when the parent row is absent ends in
a failed assert (Python `AssertionError`) instead of the claimed ok
return. -/
theorem delete_missing_parent_asserts_cx :
    (DeleteNodeExecutor.lock_and_read "/a" st_c7 [10] [11]).map
      (fun o => o.2.2.1) = some PhaseRet.assertFail := by
  decide

/-- C7 (amended): `DeleteNodeExecutor.lock_and_read` locks the target; a
missing node yields the node-doesnt-exist failure and a non-empty children
list the not-empty failure, each releasing the target lease; otherwise it
locks the parent and, when the parent node exists, returns ok, while a
missing parent node makes the assert fail instead of returning. -/
theorem delete_lock_and_read_spec_amended :
    ∀ (st : StorageState) (path : String) (tss tssp : List Int)
      (st' : StorageState) (ctx : DeleteCtx) (r : PhaseRet)
      (evs : List Event),
    DeleteNodeExecutor.lock_and_read path st tss tssp =
      some (st', ctx, r, evs) →
    ((path, ctx.timestamp) ∈ slocks_in evs) ∧
    (st.node.lookup path = none →
      r = PhaseRet.ret false (failure_reply path "node_doesnt_exist") ∧
      (path, ctx.timestamp) ∈ unlocks_in evs) ∧
    (∀ n, st.node.lookup path = some n → n.children.length ≠ 0 →
      r = PhaseRet.ret false (failure_reply path "not_empty") ∧
      (path, ctx.timestamp) ∈ unlocks_in evs) ∧
    (∀ n, st.node.lookup path = some n → n.children.length = 0 →
      st.node.lookup (pathParent path) = none →
      r = PhaseRet.assertFail) ∧
    (∀ n, st.node.lookup path = some n → n.children.length = 0 →
      (st.node.lookup (pathParent path)).isSome = true →
      r = PhaseRet.ret true ([] : Reply) ∧
      ctx.parent_node = st.node.lookup (pathParent path) ∧
      ∃ tsp, ctx.parent_timestamp = some tsp ∧
        (pathParent path, tsp) ∈ slocks_in evs) := by
  intro st path tss tssp st' ctx r evs h
  obtain ⟨m1, m2, m3, m4, m5, _, _⟩ :=
    delete_lar_master st path tss tssp st' ctx r evs h
  exact ⟨m1, m2, m3, m4, m5⟩

/-- C7 witness: deleting the childless `/a` under an existing root passes
phase 1 with the parent lock taken. -/
theorem delete_lock_and_read_spec_amended_witness :
    PhaseRet.ret true ([] : Reply) = PhaseRet.ret true ([] : Reply) ∧
    (some root_node_with_a : Option Node) =
      st_root_a.node.lookup (pathParent "/a") ∧
    ∃ tsp, (some (11 : Int) : Option Int) = some tsp ∧
      (pathParent "/a", tsp) ∈ slocks_in
        [Event.lockNode "/a" 10 true, Event.lockNode "/" 11 true] :=
  (delete_lock_and_read_spec_amended st_root_a "/a" [10] [11] st_al
      { timestamp := 10, node := some node_a, parent_timestamp := some 11,
        parent_node := some root_node_with_a }
      (PhaseRet.ret true ([] : Reply))
      [Event.lockNode "/a" 10 true, Event.lockNode "/" 11 true]
      (by decide)).2.2.2.2 node_a (by decide) (by decide) (by decide)

/-- C8 counterexample: the parent-lock retry of `DeleteNodeExecutor` sleeps
2 seconds between attempts, not the claimed 1 second. -/
theorem delete_parent_retry_sleeps_two_cx :
    (DeleteNodeExecutor.lock_and_read "/a" st_c8 [10] [12, 30]).map
      (fun o => o.2.2.2) =
      some [Event.lockNode "/a" 10 true, Event.lockNode "/" 12 false,
        Event.sleep 2, Event.lockNode "/" 30 true] := by
  decide

/-- C8 (amended): every lock-acquisition loop sleeps its fixed duration
once per failed attempt; target locks retry after 2 seconds,
`CreateNodeExecutor` parent locks after 1 second, and
`DeleteNodeExecutor` parent locks after 2 seconds like the target loop. -/
theorem retry_sleep_policy_amended :
    (∀ (d : Nat) (st : StorageState) (p : String) (tss : List Int)
      (st' : StorageState) (ts : Int) (nd : Option Node) (evs : List Event),
      lock_loop d st p tss = some (st', ts, nd, evs) →
      sleeps_in evs = List.replicate (fails_in evs) d) ∧
    (∀ (st : StorageState) (path : String) (tss tssp : List Int)
      (out : StorageState × CreateCtx × (Bool × Reply) × List Event),
      CreateNodeExecutor.lock_and_read path st tss tssp = some out →
      ∃ k1 k2, sleeps_in out.2.2.2 =
        List.replicate k1 2 ++ List.replicate k2 1) ∧
    (∀ (st : StorageState) (path : String) (tss : List Int)
      (out : StorageState × SetCtx × (Bool × Reply) × List Event),
      SetDataExecutor.lock_and_read path st tss = some out →
      ∃ k, sleeps_in out.2.2.2 = List.replicate k 2) ∧
    (∀ (st : StorageState) (path : String) (tss tssp : List Int)
      (out : StorageState × DeleteCtx × PhaseRet × List Event),
      DeleteNodeExecutor.lock_and_read path st tss tssp = some out →
      ∃ k, sleeps_in out.2.2.2 = List.replicate k 2) := by
  refine ⟨?_, ?_, ?_, ?_⟩
  · intro d st p tss st' ts nd evs h
    exact (lock_loop_spec d p tss st st' ts nd evs h).2.2.2.2
  · intro st path tss tssp out h
    obtain ⟨st', ctx, res, evs⟩ := out
    exact (create_lar_master st path tss tssp st' ctx res evs h).2.2.2.2.1
  · intro st path tss out h
    obtain ⟨st', ctx, res, evs⟩ := out
    exact (setdata_lar_master st path tss st' ctx res evs h).2.2.2.1
  · intro st path tss tssp out h
    obtain ⟨st', ctx, r, evs⟩ := out
    exact (delete_lar_master st path tss tssp st' ctx r evs h).2.2.2.2.2.1

/-- C8 witness: a parent-lock loop of the delete counterexample sleeps 2
seconds for its single failed attempt. -/
theorem retry_sleep_policy_amended_witness :
    sleeps_in [Event.lockNode "/" 12 false, Event.sleep 2,
        Event.lockNode "/" 30 true] =
      List.replicate (fails_in [Event.lockNode "/" 12 false, Event.sleep 2,
        Event.lockNode "/" 30 true]) 2 :=
  retry_sleep_policy_amended.1 2 st_c8 "/" [12, 30]
    (lock_set st_c8 "/" 30) 30 (some root_node)
    [Event.lockNode "/" 12 false, Event.sleep 2, Event.lockNode "/" 30 true]
    (by decide)

/-- C9: deregistration has a no-op phase 1; phase 2 succeeds with the
success reply exactly when the session is present, fails with the
session-does-not-exist reply otherwise, and a second deregistration of the
same session always fails with that reply. -/
theorem deregister_session_spec :
    ∀ (st : StorageState) (session_id : String),
    DeregisterSessionExecutor.lock_and_read st = (st, (true, ([] : Reply))) ∧
    ((DeregisterSessionExecutor.commit_and_unlock session_id st).2.1 =
        (true, [kv "status" "success", kv "session_id" session_id]) ↔
      st.users.contains session_id = true) ∧
    ((DeregisterSessionExecutor.commit_and_unlock session_id st).2.1 =
        (false, [kv "status" "failure", kv "session_id" session_id,
          kv "reason" "session_does_not_exist"]) ↔
      st.users.contains session_id = false) ∧
    (DeregisterSessionExecutor.commit_and_unlock session_id
        (DeregisterSessionExecutor.commit_and_unlock session_id st).1).2.1 =
      (false, [kv "status" "failure", kv "session_id" session_id,
        kv "reason" "session_does_not_exist"]) := by
  intro st sid
  by_cases hc : st.users.contains sid
  · have hm : sid ∈ st.users := by simpa using hc
    refine ⟨rfl, ?_, ?_, ?_⟩
    · simp [DeregisterSessionExecutor.commit_and_unlock, delete_user, hm]
    · simp [DeregisterSessionExecutor.commit_and_unlock, delete_user, hm]
    · simp [DeregisterSessionExecutor.commit_and_unlock, delete_user, hm,
        List.mem_filter]
  · have hm : ¬ sid ∈ st.users := by simpa using hc
    refine ⟨rfl, ?_, ?_, ?_⟩
    · simp [DeregisterSessionExecutor.commit_and_unlock, delete_user, hm]
    · simp [DeregisterSessionExecutor.commit_and_unlock, delete_user, hm]
    · simp [DeregisterSessionExecutor.commit_and_unlock, delete_user, hm,
        List.mem_filter]

/-- C10: with no timestamp key in the event, an unknown operation (or a
failed deserialization) makes `builder` raise `KeyError` from its
error-logging path; the incorrect-request reply is produced only when the
timestamp key is present. -/
theorem builder_missing_timestamp_keyerror :
    builder "unknown_op" "ev1" [] deser_any = Except.error PyExc.keyError ∧
    builder "create_node" "ev2" [] deser_none =
      Except.error PyExc.keyError ∧
    (∀ (operation event_id : String) (event : List (String × String))
      (deser : ExecutorKind → List (String × String) → Bool) (r : Reply),
      builder operation event_id event deser = Except.ok (none, r) →
      (event.lookup "timestamp").isSome = true) := by
  refine ⟨rfl, rfl, ?_⟩
  intro operation event_id event deser r h
  simp only [builder] at h
  cases hop : ops_table.lookup operation with
  | none =>
    rw [hop] at h
    cases hts : event.lookup "timestamp" with
    | none => rw [hts] at h; simp at h
    | some v => simp [hts]
  | some k =>
    rw [hop] at h
    by_cases hd : deser k event
    · simp [hd] at h
    · rw [Bool.not_eq_true] at hd
      simp only [hd, Bool.false_eq_true, if_false] at h
      cases hts : event.lookup "timestamp" with
      | none => rw [hts] at h; simp at h
      | some v => simp [hts]

/-- C10 witness: an unknown operation with a timestamp key present does
reach the incorrect-request reply, and the key is indeed present. -/
theorem builder_missing_timestamp_keyerror_witness :
    (([entry "timestamp" "123"] : List (String × String)).lookup
      "timestamp").isSome = true :=
  builder_missing_timestamp_keyerror.2.2 "unknown_op" "ev3"
    [entry "timestamp" "123"] deser_any
    [kv "status" "failure", kv "reason" "incorrect_request"] rfl
